import Mathlib

/-!
Verification of the phone-number normalizer in `src/main.py`
(functions `normalizar_telefone`, lines 21-25, and `formatar_numero`,
lines 28-76). The normalizer is a pure string-to-string function; we
embed it shallowly: Python strings become Lean `String` / `List Char`,
slicing becomes `List.take` / `List.drop`, and the fallible
`int(ddd)` call becomes an `Option Nat`-returning parse. Digits are
modelled as ASCII decimal digits (`Char.isDigit`), matching the
`re.sub(r'\D', '', numero)` strip for ASCII data.
-/

/-- `normalizar_telefone` (src/main.py lines 21-25): remove every
character that is not a decimal digit. -/
def normalizar_telefone (numero : String) : String :=
  String.mk (numero.data.filter Char.isDigit)

/-- The trunk-prefix removal (src/main.py lines 45-46):
`if digits.startswith('0'): digits = digits[1:]`. -/
def stripTrunk (digits : List Char) : List Char :=
  if digits.head? = some '0' then digits.drop 1 else digits

/-- The country-code removal (src/main.py lines 49-50):
`if digits.startswith('55'): digits = digits[2:]`. -/
def stripCountry (digits : List Char) : List Char :=
  if digits.take 2 = ['5', '5'] then digits.drop 2 else digits

/-- The digit string `formatar_numero` works on after stripping
non-digits, then the trunk `0`, then the country code `55`
(src/main.py lines 42-50). -/
def preprocess (numero : String) : List Char :=
  stripCountry (stripTrunk ((normalizar_telefone numero).data))

/-- Decimal parse modelling Python `int(ddd)` (src/main.py lines
59-62): succeeds exactly on nonempty all-digit strings (the only
shapes the call site can produce; Python `int` accepts some further
shapes such as signs and spaces, which never reach this call). -/
def parseDigits (cs : List Char) : Option Nat :=
  if cs ≠ [] ∧ cs.all Char.isDigit then
    some (cs.foldl (fun a c => a * 10 + (c.toNat - 48)) 0)
  else none

/-- The ninth-digit rule applied to the local part (src/main.py lines
64-74): for `ddd_int < 30` prepend `'9'` unless the local part
already starts with `'9'`; for `ddd_int >= 30` drop the first digit
exactly when the local part has length 9 and starts with `'9'`. -/
def applyNinth (ddd_int : Nat) (lcl : List Char) : List Char :=
  if ddd_int < 30 then
    if lcl.head? = some '9' then lcl else '9' :: lcl
  else
    if lcl.length = 9 ∧ lcl.head? = some '9' then lcl.drop 1 else lcl

/-- `formatar_numero` (src/main.py lines 28-76): strip non-digits,
trunk `0` and country `55`; if the remainder does not have 10 or 11
digits, or its first two characters do not parse, return the
original input; otherwise return `"+55" + ddd + local` with the
ninth-digit rule applied to the local part. -/
def formatar_numero (numero : String) : String :=
  if (preprocess numero).length = 10 ∨ (preprocess numero).length = 11 then
    match parseDigits ((preprocess numero).take 2) with
    | none => numero
    | some ddd_int =>
        String.mk ('+' :: '5' :: '5' ::
          ((preprocess numero).take 2 ++
            applyNinth ddd_int ((preprocess numero).drop 2)))
  else numero

/-! Basic facts about the embedding. -/

lemma data_mk (l : List Char) : (String.mk l).data = l := rfl

lemma filter_digits_id (l : List Char) (h : ∀ c ∈ l, c.isDigit) :
    l.filter Char.isDigit = l :=
  List.filter_eq_self.mpr h

lemma preprocess_all_digits (s : String) : ∀ c ∈ preprocess s, c.isDigit := by
  intro c hc
  unfold preprocess stripTrunk stripCountry at hc
  have hmem : c ∈ (normalizar_telefone s).data := by
    split at hc
    · split at hc
      · exact List.drop_subset _ _ (List.drop_subset _ _ hc)
      · exact List.drop_subset _ _ hc
    · split at hc
      · exact List.drop_subset _ _ hc
      · exact hc
  unfold normalizar_telefone at hmem
  rw [data_mk] at hmem
  exact List.of_mem_filter hmem

lemma parseDigits_of_all (cs : List Char) (hne : cs ≠ [])
    (h : ∀ c ∈ cs, c.isDigit) :
    parseDigits cs = some (cs.foldl (fun a c => a * 10 + (c.toNat - 48)) 0) := by
  unfold parseDigits
  rw [if_pos ⟨hne, List.all_eq_true.mpr h⟩]

lemma formatar_of_bad_length (s : String)
    (h : ¬((preprocess s).length = 10 ∨ (preprocess s).length = 11)) :
    formatar_numero s = s := by
  unfold formatar_numero
  rw [if_neg h]

lemma formatar_of_ok (s : String) (d : Nat)
    (hlen : (preprocess s).length = 10 ∨ (preprocess s).length = 11)
    (hp : parseDigits ((preprocess s).take 2) = some d) :
    formatar_numero s = String.mk ('+' :: '5' :: '5' ::
      ((preprocess s).take 2 ++ applyNinth d ((preprocess s).drop 2))) := by
  unfold formatar_numero
  rw [if_pos hlen, hp]

/-! Facts about the ninth-digit rule used for idempotence and the
shape of the output. -/

lemma applyNinth_lt_head (d : Nat) (hd : d < 30) (lcl : List Char) :
    (applyNinth d lcl).head? = some '9' := by
  unfold applyNinth
  rw [if_pos hd]
  by_cases h9 : lcl.head? = some '9'
  · rw [if_pos h9]; exact h9
  · rw [if_neg h9]; rfl

lemma applyNinth_ge_prop (d : Nat) (hd : ¬ d < 30) (lcl : List Char) :
    ¬((applyNinth d lcl).length = 9 ∧ (applyNinth d lcl).head? = some '9') := by
  unfold applyNinth
  rw [if_neg hd]
  by_cases hc : lcl.length = 9 ∧ lcl.head? = some '9'
  · rw [if_pos hc]
    intro hcontra
    have h8 := hcontra.1
    rw [List.length_drop, hc.1] at h8
    omega
  · rw [if_neg hc]
    exact hc

lemma applyNinth_applyNinth (d : Nat) (lcl : List Char) :
    applyNinth d (applyNinth d lcl) = applyNinth d lcl := by
  by_cases hd : d < 30
  · have h9 := applyNinth_lt_head d hd lcl
    generalize applyNinth d lcl = a at h9 ⊢
    unfold applyNinth
    rw [if_pos hd, if_pos h9]
  · have hprop := applyNinth_ge_prop d hd lcl
    generalize applyNinth d lcl = a at hprop ⊢
    unfold applyNinth
    rw [if_neg hd, if_neg hprop]

lemma applyNinth_all_digits (d : Nat) (lcl : List Char)
    (h : ∀ c ∈ lcl, c.isDigit) : ∀ c ∈ applyNinth d lcl, c.isDigit := by
  intro c hc
  unfold applyNinth at hc
  split at hc
  · split at hc
    · exact h c hc
    · rcases List.mem_cons.mp hc with h9 | hm
      · rw [h9]; decide
      · exact h c hm
  · split at hc
    · exact h c (List.drop_subset _ _ hc)
    · exact h c hc

lemma applyNinth_length (d : Nat) (lcl : List Char) :
    (applyNinth d lcl).length = lcl.length ∨
    (applyNinth d lcl).length = lcl.length + 1 ∨
    (lcl.length = 9 ∧ (applyNinth d lcl).length = 8) := by
  unfold applyNinth
  split
  · split
    · left; rfl
    · right; left; rfl
  · split
    · rename_i hc
      right; right
      refine ⟨hc.1, ?_⟩
      rw [List.length_drop, hc.1]
    · left; rfl

/-! Re-feeding a formatted output: what the second pass sees. -/

lemma preprocess_formatted (ddd lcl : List Char)
    (hd : ∀ c ∈ ddd, c.isDigit) (hl : ∀ c ∈ lcl, c.isDigit) :
    preprocess (String.mk ('+' :: '5' :: '5' :: (ddd ++ lcl))) = ddd ++ lcl := by
  unfold preprocess normalizar_telefone
  rw [data_mk, data_mk]
  have hfilter : ('+' :: '5' :: '5' :: (ddd ++ lcl)).filter Char.isDigit =
      '5' :: '5' :: (ddd ++ lcl) := by
    rw [List.filter_cons_of_neg (by decide), List.filter_cons_of_pos (by decide),
      List.filter_cons_of_pos (by decide)]
    rw [filter_digits_id (ddd ++ lcl)]
    intro c hc
    rcases List.mem_append.mp hc with h | h
    · exact hd c h
    · exact hl c h
  rw [hfilter]
  unfold stripTrunk
  have h0 : ¬('5' :: '5' :: (ddd ++ lcl)).head? = some '0' := by simp
  rw [if_neg h0]
  unfold stripCountry
  have h55 : List.take 2 ('5' :: '5' :: (ddd ++ lcl)) = ['5', '5'] := rfl
  rw [if_pos h55]
  rfl

/-- `formatar_numero` is idempotent: applying it to its own output
reproduces that output (either the second pass falls back to
identity, or it re-strips the `+`-less `55` and the ninth-digit rule
leaves the already-adjusted local part unchanged). -/
lemma formatar_idem (s : String) :
    formatar_numero (formatar_numero s) = formatar_numero s := by
  by_cases hlen : (preprocess s).length = 10 ∨ (preprocess s).length = 11
  · have hall := preprocess_all_digits s
    have hddd : ∀ c ∈ (preprocess s).take 2, c.isDigit :=
      fun c hc => hall c (List.take_subset _ _ hc)
    have hlcl : ∀ c ∈ (preprocess s).drop 2, c.isDigit :=
      fun c hc => hall c (List.drop_subset _ _ hc)
    have hddd_len : ((preprocess s).take 2).length = 2 := by
      rw [List.length_take]
      omega
    have hne : (preprocess s).take 2 ≠ [] := by
      intro hcontra
      rw [hcontra] at hddd_len
      exact absurd hddd_len (by decide)
    have hp := parseDigits_of_all ((preprocess s).take 2) hne hddd
    set d := ((preprocess s).take 2).foldl (fun a c => a * 10 + (c.toNat - 48)) 0 with hdef
    have hfs := formatar_of_ok s d hlen hp
    set ddd := (preprocess s).take 2 with hddd_def
    set lcl2 := applyNinth d ((preprocess s).drop 2) with hlcl2_def
    have hlcl2 : ∀ c ∈ lcl2, c.isDigit :=
      applyNinth_all_digits d ((preprocess s).drop 2) hlcl
    have hpre2 : preprocess (formatar_numero s) = ddd ++ lcl2 := by
      rw [hfs]
      exact preprocess_formatted ddd lcl2 hddd hlcl2
    by_cases hlen2 : (preprocess (formatar_numero s)).length = 10 ∨
        (preprocess (formatar_numero s)).length = 11
    · have htake : (preprocess (formatar_numero s)).take 2 = ddd := by
        rw [hpre2]
        exact List.take_left' hddd_len
      have hdrop : (preprocess (formatar_numero s)).drop 2 = lcl2 := by
        rw [hpre2]
        exact List.drop_left' hddd_len
      have hp2 : parseDigits ((preprocess (formatar_numero s)).take 2) = some d := by
        rw [htake]
        exact hp
      rw [formatar_of_ok (formatar_numero s) d hlen2 hp2, htake, hdrop, hfs,
        hlcl2_def, applyNinth_applyNinth]
    · rw [formatar_of_bad_length (formatar_numero s) hlen2]
  · have h := formatar_of_bad_length s hlen
    rw [h]
    exact h

/-! Claim theorems. -/

/-- C1 (counterexample): on input `"12876543211"` the output differs
from the input, yet it is not `"+55"` followed by exactly 10 or 11
digits: the ddd is 12 (< 30) and the 9-digit local part does not
start with `'9'`, so a `'9'` is prepended, giving a 10-digit local
part and 12 digits after `"+55"`. -/
theorem C1_counterexample :
    formatar_numero "12876543211" = "+55129876543211" ∧
    formatar_numero "12876543211" ≠ "12876543211" ∧
    ¬∃ ds : List Char, ("+55129876543211" : String).data = '+' :: '5' :: '5' :: ds ∧
      (ds.length = 10 ∨ ds.length = 11) := by
  refine ⟨by decide, by decide, ?_⟩
  rintro ⟨ds, h1, h2⟩
  have hlen : (("+55129876543211" : String).data).length = 15 := by decide
  rw [h1] at hlen
  simp only [List.length_cons] at hlen
  omega

/-- C1 (amended): every output of `formatar_numero` is either the
original input unchanged or `'+55'` followed by a string of 10, 11
or 12 decimal digits (2-digit ddd plus a local part of 8, 9 or 10
digits; 12 arises when a `'9'` is prepended to a 9-digit local
part). -/
theorem C1_canonical_shape (s : String) :
    formatar_numero s = s ∨
    ∃ ds : List Char, (formatar_numero s).data = '+' :: '5' :: '5' :: ds ∧
      (∀ c ∈ ds, c.isDigit) ∧
      (ds.length = 10 ∨ ds.length = 11 ∨ ds.length = 12) := by
  by_cases hlen : (preprocess s).length = 10 ∨ (preprocess s).length = 11
  · right
    have hall := preprocess_all_digits s
    have hddd : ∀ c ∈ (preprocess s).take 2, c.isDigit :=
      fun c hc => hall c (List.take_subset _ _ hc)
    have hlcl : ∀ c ∈ (preprocess s).drop 2, c.isDigit :=
      fun c hc => hall c (List.drop_subset _ _ hc)
    have hddd_len : ((preprocess s).take 2).length = 2 := by
      rw [List.length_take]
      omega
    have hne : (preprocess s).take 2 ≠ [] := by
      intro hcontra
      rw [hcontra] at hddd_len
      exact absurd hddd_len (by decide)
    have hp := parseDigits_of_all ((preprocess s).take 2) hne hddd
    set d := ((preprocess s).take 2).foldl (fun a c => a * 10 + (c.toNat - 48)) 0
    refine ⟨(preprocess s).take 2 ++ applyNinth d ((preprocess s).drop 2),
      ?_, ?_, ?_⟩
    · rw [formatar_of_ok s d hlen hp, data_mk]
    · intro c hc
      rcases List.mem_append.mp hc with h | h
      · exact hddd c h
      · exact applyNinth_all_digits d ((preprocess s).drop 2) hlcl c h
    · have hlcl_len : ((preprocess s).drop 2).length = (preprocess s).length - 2 :=
        List.length_drop 2 (preprocess s)
      have hnl := applyNinth_length d ((preprocess s).drop 2)
      rw [List.length_append, hddd_len]
      omega
  · left
    exact formatar_of_bad_length s hlen

/-- C2 (counterexample): there is no input on which `formatar_numero`
fails to be idempotent — re-feeding any output reproduces it. -/
theorem C2_counterexample :
    ¬∃ x : String, formatar_numero (formatar_numero x) ≠ formatar_numero x := by
  rintro ⟨x, hx⟩
  exact hx (formatar_idem x)

/-- C2 (amended): `formatar_numero` is idempotent: for every input
`x`, `formatar_numero (formatar_numero x) = formatar_numero x`.
A `'+55'`-prefixed output is indeed re-stripped of `'55'` on the
second pass, but the ninth-digit rule then leaves the
already-adjusted local part unchanged (and outputs with a 10-digit
local part hit the length fallback), so the output is stable. -/
theorem C2_idempotent (x : String) :
    formatar_numero (formatar_numero x) = formatar_numero x :=
  formatar_idem x

/-- C3: when the stripped digits (after the `'0'` and `'55'`
removals) have length 10 or 11 and the first two characters parse to
an integer below 30, the output is `'+55'` plus the ddd plus the
local part, with a `'9'` prepended to the local part exactly when it
does not already start with `'9'`. -/
theorem C3_ddd_lt_30 (s : String) (d : Nat)
    (hlen : (preprocess s).length = 10 ∨ (preprocess s).length = 11)
    (hp : parseDigits ((preprocess s).take 2) = some d)
    (hd : d < 30) :
    (¬((preprocess s).drop 2).head? = some '9' →
      (formatar_numero s).data =
        '+' :: '5' :: '5' :: ((preprocess s).take 2 ++ '9' :: (preprocess s).drop 2)) ∧
    (((preprocess s).drop 2).head? = some '9' →
      (formatar_numero s).data =
        '+' :: '5' :: '5' :: ((preprocess s).take 2 ++ (preprocess s).drop 2)) := by
  constructor <;> intro h9 <;>
    rw [formatar_of_ok s d hlen hp, data_mk] <;>
    unfold applyNinth <;>
    rw [if_pos hd]
  · rw [if_neg h9]
  · rw [if_pos h9]

/-- C3 (witness): `"1187654321"` has ddd `11 < 30` and 8-digit local
part `"87654321"`, which does not start with `'9'`, so a `'9'` is
prepended. -/
theorem C3_witness :
    (formatar_numero "1187654321").data =
      '+' :: '5' :: '5' :: ((preprocess "1187654321").take 2 ++
        '9' :: (preprocess "1187654321").drop 2) :=
  (C3_ddd_lt_30 "1187654321" 11 (by decide) (by decide) (by decide)).1 (by decide)

/-- C4: when the stripped digits (after the `'0'` and `'55'`
removals) have length 10 or 11 and the first two characters parse to
an integer at least 30, the leading character of the local part is
dropped exactly when the local part has length 9 and starts with
`'9'`; otherwise the local part is unchanged. -/
theorem C4_ddd_ge_30 (s : String) (d : Nat)
    (hlen : (preprocess s).length = 10 ∨ (preprocess s).length = 11)
    (hp : parseDigits ((preprocess s).take 2) = some d)
    (hd : 30 ≤ d) :
    ((((preprocess s).drop 2).length = 9 ∧ ((preprocess s).drop 2).head? = some '9') →
      (formatar_numero s).data =
        '+' :: '5' :: '5' :: ((preprocess s).take 2 ++ ((preprocess s).drop 2).drop 1)) ∧
    (¬(((preprocess s).drop 2).length = 9 ∧ ((preprocess s).drop 2).head? = some '9') →
      (formatar_numero s).data =
        '+' :: '5' :: '5' :: ((preprocess s).take 2 ++ (preprocess s).drop 2)) := by
  have hd' : ¬ d < 30 := by omega
  constructor <;> intro hc <;>
    rw [formatar_of_ok s d hlen hp, data_mk] <;>
    unfold applyNinth <;>
    rw [if_neg hd']
  · rw [if_pos hc]
  · rw [if_neg hc]

/-- C4 (witness): `"31987654321"` has ddd `31 ≥ 30` and a 9-digit
local part `"987654321"` starting with `'9'`, so the `'9'` is
dropped. -/
theorem C4_witness :
    (formatar_numero "31987654321").data =
      '+' :: '5' :: '5' :: ((preprocess "31987654321").take 2 ++
        ((preprocess "31987654321").drop 2).drop 1) :=
  (C4_ddd_ge_30 "31987654321" 31 (by decide) (by decide) (by decide)).1 (by decide)

/-- C5: `formatar_numero` is a total function (it always returns a
string; the embedding is a total Lean function, mirroring the
exception-free Python code whose only `try` is resolved by the
`except` fallback), and whenever the input fails the expected shape
— stripped length not 10 or 11, or the ddd does not parse — the
original input is returned exactly. -/
theorem C5_fallback_identity (s : String)
    (h : ¬((preprocess s).length = 10 ∨ (preprocess s).length = 11) ∨
      parseDigits ((preprocess s).take 2) = none) :
    formatar_numero s = s := by
  rcases h with h | h
  · exact formatar_of_bad_length s h
  · by_cases hlen : (preprocess s).length = 10 ∨ (preprocess s).length = 11
    · unfold formatar_numero
      rw [if_pos hlen, h]
    · exact formatar_of_bad_length s hlen

/-- C5 (witness): `"abc"` strips to no digits, fails the length
check, and is returned verbatim. -/
theorem C5_witness : formatar_numero "abc" = "abc" :=
  C5_fallback_identity "abc" (Or.inl (by decide))

/-- C6: whenever the stripped digits, after the single `'0'` and
`'55'` removals, have length other than 10 or 11 — which covers
every input with no digits at all, whose stripped form is empty —
the original input is returned unchanged. -/
theorem C6_bad_length_identity (s : String)
    (h10 : (preprocess s).length ≠ 10) (h11 : (preprocess s).length ≠ 11) :
    formatar_numero s = s := by
  apply formatar_of_bad_length
  intro hcontra
  rcases hcontra with h | h
  · exact h10 h
  · exact h11 h

/-- C6 (witness): `"a-b"` contains no digits, so its stripped form is
empty (length 0, neither 10 nor 11) and the input comes back
unchanged. -/
theorem C6_witness : formatar_numero "a-b" = "a-b" :=
  C6_bad_length_identity "a-b" (by decide) (by decide)

/-- C7: the trunk-`'0'` removal is applied before the `'55'` removal
and each fires at most once: a second leading `'0'` or `'55'`
survives, an input carrying both `'0'` and `'55'` reduces to the
bare digits before the length check, and the pipeline is exactly
trunk stripping followed by country stripping. -/
theorem C7_strip_order_single_pass :
    preprocess "05511987654321" = ("11987654321" : String).data ∧
    formatar_numero "05511987654321" = "+5511987654321" ∧
    (∀ l : List Char, stripTrunk ('0' :: l) = l) ∧
    (∀ l : List Char, stripTrunk ('0' :: '0' :: l) = '0' :: l) ∧
    (∀ l : List Char, stripCountry ('5' :: '5' :: l) = l) ∧
    (∀ l : List Char, stripCountry ('5' :: '5' :: '5' :: '5' :: l) = '5' :: '5' :: l) ∧
    (∀ s : String, preprocess s =
      stripCountry (stripTrunk ((normalizar_telefone s).data))) := by
  refine ⟨by decide, by decide, fun l => rfl, fun l => rfl, ?_, ?_, fun s => rfl⟩
  · intro l
    unfold stripCountry
    rw [if_pos (show List.take 2 ('5' :: '5' :: l) = ['5', '5'] from rfl)]
    rfl
  · intro l
    unfold stripCountry
    rw [if_pos
      (show List.take 2 ('5' :: '5' :: '5' :: '5' :: l) = ['5', '5'] from rfl)]
    rfl

/-- C8: `formatar_numero "5511987654321" = "+5511987654321"`: the
leading `'55'` is stripped as a country code and the `ddd = 11 < 30`
rule leaves the `'9'`-initial local part untouched. -/
theorem C8_country_code_example :
    formatar_numero "5511987654321" = "+5511987654321" := by decide

/-- C9: when the stripped digits do not start with `'0'`, do start
with `'55'`, and have total length 10 or 11 (a domestic number whose
own ddd is 55), the `'55'` is consumed as a country code, the 8 or 9
remaining digits fail the length check, and the input is returned
unchanged. -/
theorem C9_ddd_55_never_formatted (s : String)
    (h0 : ¬((normalizar_telefone s).data).head? = some '0')
    (h55 : ((normalizar_telefone s).data).take 2 = ['5', '5'])
    (hlen : ((normalizar_telefone s).data).length = 10 ∨
      ((normalizar_telefone s).data).length = 11) :
    formatar_numero s = s := by
  have hpre : preprocess s = ((normalizar_telefone s).data).drop 2 := by
    unfold preprocess stripTrunk
    rw [if_neg h0]
    unfold stripCountry
    rw [if_pos h55]
  apply formatar_of_bad_length
  rw [hpre, List.length_drop]
  omega

/-- C9 (witness): `"5587654321"` (10 digits starting `'55'`) is
returned unchanged. -/
theorem C9_witness : formatar_numero "5587654321" = "5587654321" :=
  C9_ddd_55_never_formatted "5587654321" (by decide) (by decide)
    (Or.inl (by decide))

/-- C10: the ddd-parse-failure fallback is unreachable: the stripped
digit string consists only of decimal digits, so whenever the
length-10-or-11 check passes, parsing the first two characters
succeeds and the parse-error branch is never taken. -/
theorem C10_parse_never_fails (s : String)
    (hlen : (preprocess s).length = 10 ∨ (preprocess s).length = 11) :
    ∃ d : Nat, parseDigits ((preprocess s).take 2) = some d := by
  have hddd : ∀ c ∈ (preprocess s).take 2, c.isDigit :=
    fun c hc => preprocess_all_digits s c (List.take_subset _ _ hc)
  have hddd_len : ((preprocess s).take 2).length = 2 := by
    rw [List.length_take]
    omega
  have hne : (preprocess s).take 2 ≠ [] := by
    intro hcontra
    rw [hcontra] at hddd_len
    exact absurd hddd_len (by decide)
  exact ⟨_, parseDigits_of_all ((preprocess s).take 2) hne hddd⟩

/-- C10 (witness): on `"1187654321"` the length check passes and the
ddd parse succeeds. -/
theorem C10_witness :
    ∃ d : Nat, parseDigits ((preprocess "1187654321").take 2) = some d :=
  C10_parse_never_fails "1187654321" (Or.inl (by decide))

/-- The remaining spec examples of section 8, checked directly
against the embedding. -/
theorem spec_section8_examples :
    formatar_numero "11987654321" = "+5511987654321" ∧
    formatar_numero "1187654321" = "+5511987654321" ∧
    formatar_numero "31987654321" = "+553187654321" ∧
    formatar_numero "3187654321" = "+553187654321" ∧
    formatar_numero "abc" = "abc" ∧
    formatar_numero "011987654321" = "+5511987654321" := by
  refine ⟨by decide, by decide, by decide, by decide, by decide, by decide⟩
